import Mathlib

/-!
Shallow embedding of the MFA incident simulator (src/lambda/simulator/handler.py)
and the remediation responder (src/lambda/responder/handler.py).

Python dicts holding JSON-ish data are modelled by the inductive `JVal`
(strings, integers, booleans, nested mappings); an event envelope is a
`JObj`, a key-value list with first-key-wins lookup mirroring dict access.
Calls to `uuid.uuid4().hex`, `time.time()` and `datetime.now(...).isoformat()`
are modelled as explicit parameters (`u`, `now`, `iso`): the Python code
reads them from the environment, the embedding receives them as inputs.
`os.environ.get('ENVIRONMENT', 'dev')` is modelled by its default.
-/

namespace MfaSim

/-- JSON-like value stored in a Python dict: string, int, bool or nested dict. -/
inductive JVal where
  | s (v : String)
  | n (v : Int)
  | b (v : Bool)
  | obj (fields : List (String × JVal))

/-- A Python dict with string keys, as an association list. -/
abbrev JObj := List (String × JVal)

/-- Dict lookup: `d[k]` as an `Option`, first binding wins. -/
def jget (d : JObj) (k : String) : Option JVal :=
  match d with
  | [] => none
  | (k2, v) :: rest => if k2 == k then some v else jget rest k

/-- Python `d.get(k, dflt)`. -/
def jgetD (d : JObj) (k : String) (dflt : JVal) : JVal :=
  (jget d k).getD dflt

/-- Python `x == "lit"` where `x` came out of a dict: true only for that string. -/
def JVal.eqStr : JVal → String → Bool
  | .s v, t => v == t
  | _, _ => false

/-- Python truthiness of the values we model: empty string / 0 / False /
empty dict are falsy, everything else truthy. -/
def JVal.truthy : JVal → Bool
  | .s v => v != ""
  | .n v => v != 0
  | .b v => v
  | .obj l => !l.isEmpty

/-- View a value as a mapping. The handler only reads keys out of values that
are mappings on every input the dispatcher feeds it (non-mapping values would
make the Python raise before producing any result); such inputs are read as
the empty mapping here. -/
def asObjD : JVal → JObj
  | .obj l => l
  | _ => []

/-- Python `str(x)` for the scalar values interpolated into f-strings. -/
def JVal.asText : JVal → String
  | .s v => v
  | .n v => toString v
  | .b true => "True"
  | .b false => "False"
  | .obj _ => ""

/-- `os.environ.get('ENVIRONMENT', 'dev')` modelled by its default. -/
def ENVIRONMENT : String := "dev"

/-- Python `str.split(sep)` for a one-character separator, over the char
list: `"a:b:c" ↦ ["a","b","c"]`, `"ec2" ↦ ["ec2"]`, `"a:" ↦ ["a",""]`. -/
def splitListOn (c : Char) : List Char → List (List Char)
  | [] => [[]]
  | x :: xs =>
    let rest := splitListOn c xs
    if x == c then [] :: rest
    else
      match rest with
      | [] => [[x]]
      | r :: rs => (x :: r) :: rs

/-- Python `denied_action.split(':')`. -/
def pySplitColon (s : String) : List String :=
  (splitListOn ':' s.data).map (fun l => String.mk l)

/-- Python `':' in denied_action`. -/
def pyContainsColon (s : String) : Bool := s.data.contains ':'

/-- Python `uuid_hex[:8].upper()` applied to the fresh uuid hex string. -/
def pyTake8Upper (u : String) : String := String.mk ((u.data.take 8).map Char.toUpper)

/-- The incident record built by the simulator/classifier. Keys that some
builders never put into the dict are `Option` fields (`none` = key absent);
in particular no builder in handler.py ever writes a `failure_type` key. -/
structure Incident where
  incident_id : String
  scenario : String
  severity : String
  status : String
  timestamp : String
  created_at : Int
  user : JVal
  source_ip : JVal
  detection_source : String
  detection_signal : JObj
  description : String
  recommended_action : String
  auto_remediation : Bool
  failure_type : Option String
  remediation_type : Option String
  cooldown_seconds : Option Int
  metadata : Option JObj
  environment : String
  ttl : Int

/-- handler.py `create_mfa_auth_failure_incident` (detector path). -/
def create_mfa_auth_failure_incident (user source_ip : JVal) (cloudtrail_detail : JObj)
    (u : String) (now : Int) (iso : String) : Incident :=
  { incident_id := "MFA-AUTH-" ++ pyTake8Upper u
    scenario := "mfa_auth_failure"
    severity := "MEDIUM"
    status := "OPEN"
    timestamp := iso
    created_at := now
    user := user
    source_ip := source_ip
    detection_source := "cloudtrail"
    detection_signal :=
      [ ("event_name", .s "ConsoleLogin")
      , ("event_source", .s "signin.amazonaws.com")
      , ("error_message", jgetD cloudtrail_detail "errorMessage" (.s "Failed authentication"))
      , ("event_time", jgetD cloudtrail_detail "eventTime" (.s ""))
      , ("aws_region", jgetD cloudtrail_detail "awsRegion" (.s ""))
      , ("additional_event_data", jgetD cloudtrail_detail "additionalEventData" (.obj [])) ]
    description := "MFA authentication failure for user " ++ user.asText ++
      " consistent with token expiration or timing issue"
    recommended_action := "User must re-authenticate with valid MFA token"
    auto_remediation := false
    failure_type := none
    remediation_type := none
    cooldown_seconds := none
    metadata := none
    environment := ENVIRONMENT
    ttl := now + 7 * 24 * 60 * 60 }

/-- handler.py `create_policy_mismatch_incident` (detector path). -/
def create_policy_mismatch_incident (user source_ip denied_action : JVal)
    (cloudtrail_detail : JObj) (u : String) (now : Int) (iso : String) : Incident :=
  { incident_id := "POLICY-" ++ pyTake8Upper u
    scenario := "policy_mismatch"
    severity := "MEDIUM"
    status := "OPEN"
    timestamp := iso
    created_at := now
    user := user
    source_ip := source_ip
    detection_source := "cloudtrail"
    detection_signal :=
      [ ("event_name", denied_action)
      , ("event_source", jgetD cloudtrail_detail "eventSource" (.s ""))
      , ("error_code", jgetD cloudtrail_detail "errorCode" (.s "AccessDenied"))
      , ("error_message", jgetD cloudtrail_detail "errorMessage" (.s ""))
      , ("event_time", jgetD cloudtrail_detail "eventTime" (.s ""))
      , ("request_parameters", jgetD cloudtrail_detail "requestParameters" (.obj [])) ]
    description := "Policy mismatch: User " ++ user.asText ++ " has MFA session but " ++
      denied_action.asText ++ " denied due to condition mismatch"
    recommended_action := "Admin must review IAM policy conditions for aws:MultiFactorAuthPresent"
    auto_remediation := false
    failure_type := none
    remediation_type := none
    cooldown_seconds := none
    metadata := none
    environment := ENVIRONMENT
    ttl := now + 7 * 24 * 60 * 60 }

/-- handler.py `is_cloudtrail_event`: key `detail-type` present, key `detail`
present, and the `detail` value is a dict. -/
def is_cloudtrail_event (event : JObj) : Bool :=
  (jget event "detail-type").isSome &&
  (jget event "detail").isSome &&
  (match jget event "detail" with
   | some (.obj _) => true
   | _ => false)

/-- The incident-producing core of handler.py `process_cloudtrail_event`
(lines 75-115): extract fields from the detail payload, match the two
patterns in order, return the constructed incident or `none` (NoMatch). -/
def classify (event : JObj) (u : String) (now : Int) (iso : String) : Option Incident :=
  let detail := asObjD (jgetD event "detail" (.obj []))
  let event_name := jgetD detail "eventName" (.s "")
  let error_code := jgetD detail "errorCode" (.s "")
  let error_message := jgetD detail "errorMessage" (.s "")
  let user_identity := asObjD (jgetD detail "userIdentity" (.obj []))
  let username := jgetD user_identity "userName" (jgetD user_identity "principalId" (.s "unknown"))
  let source_ip := jgetD detail "sourceIPAddress" (.s "unknown")
  if event_name.eqStr "ConsoleLogin" && error_message.truthy then
    let additional_data := asObjD (jgetD detail "additionalEventData" (.obj []))
    let mfa_used := jgetD additional_data "MFAUsed" (.s "Yes")
    if mfa_used.eqStr "No" || error_message.truthy then
      some (create_mfa_auth_failure_incident username source_ip detail u now iso)
    else
      none
  else if error_code.eqStr "AccessDenied" || error_code.eqStr "UnauthorizedAccess" then
    let session_context := asObjD (jgetD user_identity "sessionContext" (.obj []))
    let session_attrs := asObjD (jgetD session_context "attributes" (.obj []))
    let mfa_authenticated := jgetD session_attrs "mfaAuthenticated" (.s "false")
    if mfa_authenticated.eqStr "true" then
      some (create_policy_mismatch_incident username source_ip event_name detail u now iso)
    else
      none
  else
    none

/-- handler.py `simulate_mfa_auth_failure` (simulator path). -/
def simulate_mfa_auth_failure (user source_ip : JVal) (metadata : JVal)
    (u : String) (now : Int) (iso : String) : Incident :=
  { incident_id := "MFA-AUTH-" ++ pyTake8Upper u
    scenario := "mfa_auth_failure"
    severity := "MEDIUM"
    status := "OPEN"
    timestamp := iso
    created_at := now
    user := user
    source_ip := source_ip
    detection_source := "simulator"
    detection_signal :=
      [ ("event_name", .s "ConsoleLogin")
      , ("event_source", .s "signin.amazonaws.com")
      , ("error_message", .s "Failed authentication")
      , ("additional_event_data", .obj
          [ ("MFAUsed", .s "No")
          , ("LoginTo", .s "https://console.aws.amazon.com/console/home")
          , ("MobileVersion", .s "No") ]) ]
    description := "MFA authentication failure for user " ++ user.asText ++
      " consistent with token expiration or timing issue"
    recommended_action := "User must re-authenticate with valid MFA token"
    auto_remediation := false
    failure_type := none
    remediation_type := none
    cooldown_seconds := none
    metadata := some (asObjD metadata)
    environment := ENVIRONMENT
    ttl := now + 7 * 24 * 60 * 60 }

/-- handler.py `simulate_rate_limiting` (simulator path). -/
def simulate_rate_limiting (user source_ip : JVal) (metadata : JVal)
    (u : String) (now : Int) (iso : String) : Incident :=
  let failure_count := jgetD (asObjD metadata) "failure_count" (.n 5)
  let window_seconds := jgetD (asObjD metadata) "window_seconds" (.n 60)
  { incident_id := "RATE-LIMIT-" ++ pyTake8Upper u
    scenario := "rate_limiting"
    severity := "HIGH"
    status := "OPEN"
    timestamp := iso
    created_at := now
    user := user
    source_ip := source_ip
    detection_source := "simulator"
    detection_signal :=
      [ ("event_name", .s "ConsoleLogin")
      , ("event_source", .s "signin.amazonaws.com")
      , ("failure_count", failure_count)
      , ("window_seconds", window_seconds)
      , ("pattern", .s "Multiple failed attempts from same user and IP") ]
    description := "Rate limiting triggered: " ++ failure_count.asText ++
      " failed MFA attempts in " ++ window_seconds.asText ++ "s for user " ++ user.asText
    recommended_action := "Wait for cooldown period, then attempt re-authentication"
    auto_remediation := true
    failure_type := none
    remediation_type := some "assisted"
    cooldown_seconds := some 300
    metadata := some (asObjD metadata)
    environment := ENVIRONMENT
    ttl := now + 7 * 24 * 60 * 60 }

/-- handler.py `simulate_policy_mismatch` (simulator path). The denied action
is read with default "s3:GetObject"; a non-string value would make the Python
`':' in denied_action` / `denied_action.split(':')` raise, modelled as `none`.
Under the `':' in denied_action` guard the split has at least two fields, so
Python's `[0]` / `[1]` indexing is modelled by `List.getD`. -/
def simulate_policy_mismatch (user source_ip : JVal) (metadata : JVal)
    (u : String) (now : Int) (iso : String) : Option Incident :=
  match jgetD (asObjD metadata) "denied_action" (.s "s3:GetObject") with
  | .s denied_action =>
    let resource := jgetD (asObjD metadata) "resource" (.s "arn:aws:s3:::sensitive-bucket/*")
    some
    { incident_id := "POLICY-" ++ pyTake8Upper u
      scenario := "policy_mismatch"
      severity := "MEDIUM"
      status := "OPEN"
      timestamp := iso
      created_at := now
      user := user
      source_ip := source_ip
      detection_source := "simulator"
      detection_signal :=
        [ ("event_name", .s (if pyContainsColon denied_action then
              (pySplitColon denied_action).getD 1 "" else denied_action))
        , ("event_source", .s (if pyContainsColon denied_action then
              (pySplitColon denied_action).getD 0 "" ++ ".amazonaws.com" else "aws.amazonaws.com"))
        , ("error_code", .s "AccessDenied")
        , ("error_message", .s "User has MFA but policy condition denies action")
        , ("condition_evaluated", .s "aws:MultiFactorAuthPresent")
        , ("condition_result", .s "false (expected true)")
        , ("attempted_action", .s denied_action)
        , ("resource", resource) ]
      description := "Policy mismatch: User " ++ user.asText ++ " has MFA session but " ++
        denied_action ++ " denied due to condition mismatch"
      recommended_action := "Admin must review IAM policy conditions for aws:MultiFactorAuthPresent"
      auto_remediation := false
      failure_type := none
      remediation_type := none
      cooldown_seconds := none
      metadata := some (asObjD metadata)
      environment := ENVIRONMENT
      ttl := now + 7 * 24 * 60 * 60 }
  | _ => none

/-- One collaborator call attempted by the handler, in order. -/
inductive SideCall where
  | store (inc : Incident)
  | notify (inc : Incident)
  | metric (inc : Incident)

/-- Whether a call in the trace is the store write. -/
def SideCall.isStore : SideCall → Bool
  | .store _ => true
  | _ => false

/-- Outcome oracles for the three collaborators: whether the DynamoDB put
raises, whether an SNS topic is configured, and whether the SNS publish /
CloudWatch put raise. -/
structure Collab where
  store_ok : Bool
  sns_configured : Bool
  notify_ok : Bool
  metric_ok : Bool

/-- handler.py `store_incident`: attempts the put; an exception is re-raised
(`Except.error`). The trace records the attempted call. -/
def store_incident (c : Collab) (inc : Incident) : Except Unit Unit × List SideCall :=
  if c.store_ok then (.ok (), [.store inc]) else (.error (), [.store inc])

/-- handler.py `publish_alert`: skipped when no topic is configured; any
exception from the publish is caught and swallowed, so the function always
returns (its result does not depend on `notify_ok`). -/
def publish_alert (c : Collab) (inc : Incident) : List SideCall :=
  if c.sns_configured then [.notify inc] else []

/-- handler.py `emit_metric`: always attempts the put; any exception is
caught and swallowed (the result does not depend on the collaborator
oracle at all). -/
def emit_metric (_c : Collab) (inc : Incident) : List SideCall :=
  [.metric inc]

/-- The response body of `process_simulator_event`, with `none` for keys a
branch does not put into the body. -/
structure SimBody where
  statusCode : Nat
  mode : Option String
  incident_id : Option String
  scenario : Option JVal
  status : Option String
  timestamp : Option String
  errorText : Option String
  valid_scenarios : Option (List String)

/-- The store-notify-metric tail shared by the simulator branches
(handler.py lines 172-190): a raising store aborts the request, notify and
metric failures are swallowed inside their functions. -/
def run_pipeline (c : Collab) (incident : Incident) (scenario : JVal) :
    Except Unit SimBody × List SideCall :=
  match store_incident c incident with
  | (.error e, calls) => (.error e, calls)
  | (.ok _, calls1) =>
    let calls2 := publish_alert c incident
    let calls3 := emit_metric c incident
    ( .ok { statusCode := 200
            mode := some "simulator"
            incident_id := some incident.incident_id
            scenario := some scenario
            status := some "created"
            timestamp := some incident.timestamp
            errorText := none
            valid_scenarios := none }
    , calls1 ++ calls2 ++ calls3 )

/-- handler.py `process_simulator_event`: defaults for scenario/user/ip/
metadata, dispatch on the scenario string, 400 body for an unknown one. -/
def process_simulator_event (c : Collab) (event : JObj)
    (u : String) (now : Int) (iso : String) : Except Unit SimBody × List SideCall :=
  let scenario := jgetD event "scenario" (.s "mfa_auth_failure")
  let user := jgetD event "user" (.s "test-user")
  let source_ip := jgetD event "source_ip" (.s "192.0.2.1")
  let metadata := jgetD event "metadata" (.obj [])
  if scenario.eqStr "mfa_auth_failure" then
    run_pipeline c (simulate_mfa_auth_failure user source_ip metadata u now iso) scenario
  else if scenario.eqStr "rate_limiting" then
    run_pipeline c (simulate_rate_limiting user source_ip metadata u now iso) scenario
  else if scenario.eqStr "policy_mismatch" then
    match simulate_policy_mismatch user source_ip metadata u now iso with
    | some incident => run_pipeline c incident scenario
    | none => (.error (), [])
  else
    ( .ok { statusCode := 400
            mode := none
            incident_id := none
            scenario := none
            status := none
            timestamp := none
            errorText := some ("Unknown scenario: " ++ scenario.asText)
            valid_scenarios := some ["mfa_auth_failure", "rate_limiting", "policy_mismatch"] }
    , [] )

/-- Routing target of handler.py `lambda_handler` (simulator handler). -/
inductive Route where
  | detector
  | simulator
deriving DecidableEq

/-- handler.py `lambda_handler` dispatch: detector mode iff
`is_cloudtrail_event`, otherwise simulator mode. -/
def route (event : JObj) : Route :=
  if is_cloudtrail_event event then .detector else .simulator

/-- An incident item as the responder reads it back from the table scan.
Fields the scheduler reads or writes; `Option` = key may be absent. -/
structure StoredIncident where
  incident_id : String
  scenario : String
  status : String
  created_at : Option Int
  cooldown_seconds : Option Int
  resolved_at : Option String
  resolution_time_seconds : Option Int
  resolution_notes : Option String
  remediation_type : Option String
deriving DecidableEq

/-- responder handler.py `get_eligible_incidents`: the table scan (filter
expression `scenario = rate_limiting AND status = OPEN`) applied to the raw
table contents, then the cooldown test `current_time > created_at + cooldown`
with dict-get defaults 0 and 300; a raising scan is caught and yields `[]`. -/
def get_eligible_incidents (current_time : Int)
    (scanResult : Except Unit (List StoredIncident)) : List StoredIncident :=
  match scanResult with
  | .error _ => []
  | .ok items =>
    items.filter fun item =>
      item.scenario == "rate_limiting" && item.status == "OPEN" &&
      decide (current_time > item.created_at.getD 0 + item.cooldown_seconds.getD 300)

/-- responder handler.py `update_incident_status`: the DynamoDB
`update_item` carries no ConditionExpression, so as a state transformer on
the addressed record it unconditionally SETs status, resolved_at,
resolution_time_seconds, resolution_notes and remediation_type. -/
def update_incident_status (rec : StoredIncident) (new_status : String)
    (resolved_at_iso : String) (resolution_time : Int)
    (resolution_notes : String) : StoredIncident :=
  { rec with
    status := new_status
    resolved_at := some resolved_at_iso
    resolution_time_seconds := some resolution_time
    resolution_notes := some resolution_notes
    remediation_type := some "assisted_auto" }

/-- The body of the responder `lambda_handler` response. -/
structure RespBody where
  statusCode : Nat
  processed : Nat
  total_eligible : Option Nat
  message : Option String
deriving DecidableEq

/-- responder handler.py `lambda_handler`: query eligibility, short-circuit
when empty, otherwise process each incident, counting only those whose
`process_remediation` did not raise (`remOk` is the per-incident outcome
oracle for the collaborator calls inside `process_remediation`). -/
def responder_run (current_time : Int)
    (scanResult : Except Unit (List StoredIncident))
    (remOk : StoredIncident → Bool) : RespBody :=
  let eligible := get_eligible_incidents current_time scanResult
  if eligible.isEmpty then
    { statusCode := 200, processed := 0, total_eligible := none
      message := some "No eligible incidents" }
  else
    { statusCode := 200, processed := (eligible.filter remOk).length
      total_eligible := some eligible.length, message := none }

/-- The repository's own fixture `cloudtrail_console_login_success_no_mfa`
(tests/conftest.py): a successful ConsoleLogin with `MFAUsed = "No"` and no
`errorMessage` key, restricted to the keys the handler reads. -/
def consoleLoginSuccessNoMfa : JObj :=
  [ ("detail-type", .s "AWS Console Sign In via CloudTrail")
  , ("source", .s "aws.signin")
  , ("detail", .obj
      [ ("eventName", .s "ConsoleLogin")
      , ("awsRegion", .s "us-east-1")
      , ("sourceIPAddress", .s "203.0.113.42")
      , ("responseElements", .obj [("ConsoleLogin", .s "Success")])
      , ("additionalEventData", .obj
          [ ("MFAUsed", .s "No")
          , ("MobileVersion", .s "No") ])
      , ("userIdentity", .obj
          [ ("type", .s "IAMUser")
          , ("userName", .s "finance-analyst-01")
          , ("principalId", .s "AIDAEXAMPLE123456789") ]) ]) ]

/-- Detail payload of the repository's fixture
`cloudtrail_console_login_failed_no_mfa` (tests/conftest.py) with the
`MFAUsed` value left as a parameter: a failed ConsoleLogin carrying
`errorMessage = "Failed authentication"`. -/
def consoleLoginFailedDetail (mfa : JVal) : JObj :=
  [ ("eventName", .s "ConsoleLogin")
  , ("awsRegion", .s "us-east-1")
  , ("sourceIPAddress", .s "203.0.113.42")
  , ("errorMessage", .s "Failed authentication")
  , ("responseElements", .obj [("ConsoleLogin", .s "Failure")])
  , ("additionalEventData", .obj [("MFAUsed", mfa)])
  , ("userIdentity", .obj
      [ ("type", .s "IAMUser")
      , ("userName", .s "dev-engineer-02")
      , ("principalId", .s "AIDAEXAMPLE123456790") ]) ]

/-- The full envelope around `consoleLoginFailedDetail`. -/
def consoleLoginFailed (mfa : JVal) : JObj :=
  [ ("detail-type", .s "AWS Console Sign In via CloudTrail")
  , ("source", .s "aws.signin")
  , ("detail", .obj (consoleLoginFailedDetail mfa)) ]

/-- Modelled from the spec: the claim's routing condition, in its own words —
a "live" envelope carries a NON-EMPTY pattern-type field and a mapping
detail payload. Compared against `is_cloudtrail_event`-based routing. -/
def specLiveEnvelope (event : JObj) : Bool :=
  (match jget event "detail-type" with
   | some v => v.truthy
   | none => false) &&
  (match jget event "detail" with
   | some (.obj _) => true
   | _ => false)

/-- The spec's scenario-to-id-prefix table ("incident_id prefix MUST match
scenario"). -/
def idStemFor : String → String
  | "mfa_auth_failure" => "MFA-AUTH"
  | "rate_limiting" => "RATE-LIMIT"
  | "policy_mismatch" => "POLICY"
  | _ => ""

/-- A simulator-mode request reaches the store/notify/metric pipeline with an
incident exactly when its scenario is one of the three known values and, for
policy_mismatch, the denied action read from metadata is a string (the
default applies when the key is absent). -/
def producesIncident (event : JObj) : Bool :=
  let scenario := jgetD event "scenario" (.s "mfa_auth_failure")
  scenario.eqStr "mfa_auth_failure" || scenario.eqStr "rate_limiting" ||
  (scenario.eqStr "policy_mismatch" &&
    (match jgetD (asObjD (jgetD event "metadata" (.obj []))) "denied_action" (.s "s3:GetObject") with
     | .s _ => true
     | _ => false))

/-- A throwaway incident used as the `Option.getD` default in closed
instantiations. -/
def dummyIncident : Incident :=
  simulate_mfa_auth_failure (.s "") (.s "") (.obj []) "" 0 ""

/-- A rate_limiting item sitting exactly at the cooldown boundary:
`created_at + cooldown_seconds = 400`. -/
def boundaryIncident : StoredIncident :=
  { incident_id := "RATE-LIMIT-BOUND01"
    scenario := "rate_limiting"
    status := "OPEN"
    created_at := some 100
    cooldown_seconds := some 300
    resolved_at := none
    resolution_time_seconds := none
    resolution_notes := none
    remediation_type := none }

/-- A rate_limiting item already resolved by an earlier scheduler run. -/
def resolvedRecord : StoredIncident :=
  { incident_id := "RATE-LIMIT-RACE001"
    scenario := "rate_limiting"
    status := "RESOLVED"
    created_at := some 100
    cooldown_seconds := some 300
    resolved_at := some "2025-02-18T15:00:00+00:00"
    resolution_time_seconds := some 250
    resolution_notes := some "Cooldown period completed. Rate limiting cleared. User may attempt re-authentication."
    remediation_type := some "assisted_auto" }

theorem splitListOn_ne_nil (c : Char) (l : List Char) : splitListOn c l ≠ [] := by
  cases l with
  | nil => simp [splitListOn]
  | cons x xs =>
    simp only [splitListOn]
    split
    · simp
    · split <;> simp

theorem two_le_splitListOn (c : Char) (l : List Char) (h : l.contains c = true) :
    2 ≤ (splitListOn c l).length := by
  induction l with
  | nil => simp [List.contains] at h
  | cons x xs ih =>
    simp only [splitListOn]
    by_cases hx : x == c
    · simp only [hx, if_true, List.length_cons]
      have := splitListOn_ne_nil c xs
      cases hsp : splitListOn c xs with
      | nil => exact absurd hsp this
      | cons r rs => simp
    · simp only [hx, if_false]
      have hxs : xs.contains c = true := by
        simp only [List.contains_cons, Bool.or_eq_true] at h
        rcases h with h | h
        · exact absurd (by rw [BEq.comm] at h; exact h) (by simpa using hx)
        · exact h
      have h2 := ih hxs
      cases hsp : splitListOn c xs with
      | nil => exact absurd hsp (splitListOn_ne_nil c xs)
      | cons r rs =>
        rw [hsp] at h2
        simpa using h2

theorem two_le_pySplitColon (s : String) (h : pyContainsColon s = true) :
    2 ≤ (pySplitColon s).length := by
  unfold pySplitColon
  rw [List.length_map]
  exact two_le_splitListOn ':' s.data h

theorem run_pipeline_store_fail (c : Collab) (inc : Incident) (scen : JVal)
    (h : c.store_ok = false) :
    run_pipeline c inc scen = (.error (), [.store inc]) := by
  simp [run_pipeline, store_incident, h]

theorem run_pipeline_store_ok (c : Collab) (inc : Incident) (scen : JVal)
    (h : c.store_ok = true) :
    ∃ body, (run_pipeline c inc scen).fst = .ok body ∧
      body.statusCode = 200 ∧ body.status = some "created" := by
  simp [run_pipeline, store_incident, h]

theorem run_pipeline_cases (c : Collab) (inc : Incident) (scen : JVal) :
    (c.store_ok = false →
      (run_pipeline c inc scen).fst = .error () ∧
      ∀ call ∈ (run_pipeline c inc scen).snd, call.isStore = true) ∧
    (c.store_ok = true →
      ∃ body, (run_pipeline c inc scen).fst = .ok body ∧
        body.statusCode = 200 ∧ body.status = some "created") := by
  constructor
  · intro h
    rw [run_pipeline_store_fail c inc scen h]
    refine ⟨rfl, ?_⟩
    intro call hcall
    rw [List.mem_singleton] at hcall
    subst hcall
    rfl
  · intro h
    exact run_pipeline_store_ok c inc scen h

/-- C1: contrary to the claim (and to the repository's own test
`test_detects_successful_login_without_mfa` and spec section 4.2 step 3b),
a ConsoleLogin envelope with an absent error message and
`additionalEventData.MFAUsed = "No"` produces NO incident: the classifier
requires a non-empty error message before it even looks at the MFA flag, so
the event falls through to NoMatch instead of an mfa_not_enforced / HIGH
incident. -/
theorem C1_success_without_mfa_is_no_match (u : String) (now : Int) (iso : String) :
    classify consoleLoginSuccessNoMfa u now iso = none := rfl

/-- C2: contrary to the claim, the Scheduler's resolution update is a blind
overwrite, not a conditional write: applied to a record that is already
RESOLVED it does not leave the record unchanged — it overwrites resolved_at,
resolution_time_seconds and resolution_notes with the new values. -/
theorem C2_resolution_update_is_blind_overwrite :
    update_incident_status resolvedRecord "RESOLVED" "2025-02-18T16:00:00+00:00" 3500
        "Cooldown period completed. Rate limiting cleared. User may attempt re-authentication."
      ≠ resolvedRecord ∧
    (update_incident_status resolvedRecord "RESOLVED" "2025-02-18T16:00:00+00:00" 3500
        "Cooldown period completed. Rate limiting cleared. User may attempt re-authentication."
      ).resolved_at = some "2025-02-18T16:00:00+00:00" ∧
    (update_incident_status resolvedRecord "RESOLVED" "2025-02-18T16:00:00+00:00" 3500
        "Cooldown period completed. Rate limiting cleared. User may attempt re-authentication."
      ).resolution_time_seconds = some 3500 := by
  refine ⟨?_, rfl, rfl⟩
  decide

/-- C10: a raising store query is swallowed inside `get_eligible_incidents`
(empty eligibility list), and the scheduler run still returns a 200 success
body with processed = 0 — a query failure never errors the run. -/
theorem C10_query_failure_yields_success_zero (current_time : Int)
    (remOk : StoredIncident → Bool) :
    get_eligible_incidents current_time (.error ()) = [] ∧
    responder_run current_time (.error ()) remOk =
      { statusCode := 200, processed := 0, total_eligible := none
        message := some "No eligible incidents" } :=
  ⟨rfl, rfl⟩

/-- C3 counterexample: an event whose pattern-type field is the EMPTY string
(with a mapping detail) is routed to the live-detection path by the code,
while the claim's non-empty-pattern-type condition classifies it as a
synthetic simulator request. -/
theorem C3_empty_pattern_type_routed_to_detector :
    route [("detail-type", JVal.s ""), ("detail", JVal.obj [])] = Route.detector ∧
    specLiveEnvelope [("detail-type", JVal.s ""), ("detail", JVal.obj [])] = false :=
  ⟨rfl, rfl⟩

/-- C3 amended: the dispatch handler routes an event to the live-detection
path iff the pattern-type key is PRESENT (with any value, empty string
included) and the detail payload is a mapping; everything else goes to the
simulator path. -/
theorem C3_detector_iff_key_present_and_detail_mapping (event : JObj) :
    route event = Route.detector ↔
      ((jget event "detail-type").isSome = true ∧
        ∃ l, jget event "detail" = some (JVal.obj l)) := by
  unfold route is_cloudtrail_event
  rcases h1 : jget event "detail-type" with _ | v1
  · simp [h1]
  · rcases h2 : jget event "detail" with _ | v2
    · simp [h2]
    · cases v2 <;> simp [h2]

/-- C3 witness: a well-formed CloudTrail envelope is routed to the detector,
via the amended characterization. -/
theorem C3_detector_route_witness :
    route consoleLoginSuccessNoMfa = Route.detector :=
  (C3_detector_iff_key_present_and_detail_mapping consoleLoginSuccessNoMfa).mpr
    ⟨rfl, _, rfl⟩

/-- C5 counterexample: at the exact boundary `now = created_at +
cooldown_seconds` (claim: eligible, since now ≥ created_at + cooldown) the
code's strict comparison leaves the incident NOT eligible. -/
theorem C5_boundary_incident_not_eligible :
    (400 : Int) ≥ 100 + 300 ∧
    boundaryIncident.created_at.getD 0 + boundaryIncident.cooldown_seconds.getD 300 = 400 ∧
    get_eligible_incidents 400 (.ok [boundaryIncident]) = [] :=
  ⟨by decide, rfl, rfl⟩

/-- C5 amended: an incident is selected as eligible iff scenario =
rate_limiting, status = OPEN, and now is STRICTLY past created_at +
cooldown_seconds; at the exact boundary the incident is not eligible. -/
theorem C5_eligible_iff_strictly_past_cooldown (current_time : Int)
    (items : List StoredIncident) (item : StoredIncident) :
    item ∈ get_eligible_incidents current_time (.ok items) ↔
      (item ∈ items ∧ item.scenario = "rate_limiting" ∧ item.status = "OPEN" ∧
        item.created_at.getD 0 + item.cooldown_seconds.getD 300 < current_time) := by
  simp [get_eligible_incidents, List.mem_filter, Bool.and_eq_true, beq_iff_eq,
    decide_eq_true_eq, and_assoc, gt_iff_lt]

/-- C5 witness: an OPEN rate_limiting incident 400 seconds old with a 300
second cooldown is eligible. -/
theorem C5_aged_incident_eligible :
    boundaryIncident ∈ get_eligible_incidents 500 (.ok [boundaryIncident]) :=
  (C5_eligible_iff_strictly_past_cooldown 500 [boundaryIncident] boundaryIncident).mpr
    ⟨List.mem_singleton.mpr rfl, rfl, rfl, by decide⟩

/-- C4: a ConsoleLogin envelope with a non-empty error message yields an
incident with scenario mfa_auth_failure and severity MEDIUM whatever the
MFAUsed value is (that much matches the claim) — but, contrary to the claim
and to the repository's own test `test_detects_failed_login_without_mfa`,
the incident carries NO failure_type field at all (the builder never writes
that key), rather than failure_type = authentication_failed. -/
theorem C4_failed_login_incident_has_no_failure_type (mfa : JVal) (u : String)
    (now : Int) (iso : String) :
    ∃ inc, classify (consoleLoginFailed mfa) u now iso = some inc ∧
      inc.scenario = "mfa_auth_failure" ∧ inc.severity = "MEDIUM" ∧
      inc.failure_type = none := by
  refine ⟨create_mfa_auth_failure_incident (.s "dev-engineer-02") (.s "203.0.113.42")
    (consoleLoginFailedDetail mfa) u now iso, ?_, rfl, rfl, rfl⟩
  show (if JVal.eqStr mfa "No" || true then
      some (create_mfa_auth_failure_incident (.s "dev-engineer-02") (.s "203.0.113.42")
        (consoleLoginFailedDetail mfa) u now iso)
    else none) = _
  rw [Bool.or_true]
  rfl

/-- C6 counterexample: with `denied_action = "a:b:c"` the synthesized event
name is "b" (the SECOND colon-split field), not "b:c" (the part after the
first colon, as claimed); and with the colon-free `denied_action = "ec2"`
the event source is the fixed "aws.amazonaws.com", not the whole string
"ec2" as claimed. -/
theorem C6_split_counterexample :
    (∃ inc, simulate_policy_mismatch (JVal.s "sim-user") (JVal.s "192.0.2.1")
        (JVal.obj [("denied_action", JVal.s "a:b:c")]) "u" 0 "T" = some inc ∧
        jget inc.detection_signal "event_name" = some (JVal.s "b")) ∧
    ("b" : String) ≠ "b:c" ∧
    (∃ inc, simulate_policy_mismatch (JVal.s "sim-user") (JVal.s "192.0.2.1")
        (JVal.obj [("denied_action", JVal.s "ec2")]) "u" 0 "T" = some inc ∧
        jget inc.detection_signal "event_source" = some (JVal.s "aws.amazonaws.com")) ∧
    ("aws.amazonaws.com" : String) ≠ "ec2" :=
  ⟨⟨_, rfl, rfl⟩, by decide, ⟨_, rfl, rfl⟩, by decide⟩

/-- C6 amended: when the denied_action string contains a colon, the
detection_signal event name is the SECOND field of the colon split (the
segment between the first and the second colon) — and that index is always
in range, since a string containing a colon splits into at least two fields
— while the event source is the field before the first colon suffixed with
".amazonaws.com"; when it contains no colon, the event name is the whole
string but the event source is the fixed "aws.amazonaws.com". -/
theorem C6_signal_derived_from_denied_action (user source_ip md : JVal)
    (u : String) (now : Int) (iso : String) (da : String)
    (hda : jgetD (asObjD md) "denied_action" (.s "s3:GetObject") = .s da) :
    ∃ inc, simulate_policy_mismatch user source_ip md u now iso = some inc ∧
      (pyContainsColon da = true →
        2 ≤ (pySplitColon da).length ∧
        jget inc.detection_signal "event_name" = some (.s ((pySplitColon da).getD 1 "")) ∧
        jget inc.detection_signal "event_source" =
          some (.s ((pySplitColon da).getD 0 "" ++ ".amazonaws.com"))) ∧
      (pyContainsColon da = false →
        jget inc.detection_signal "event_name" = some (.s da) ∧
        jget inc.detection_signal "event_source" = some (.s "aws.amazonaws.com")) := by
  unfold simulate_policy_mismatch
  rw [hda]
  refine ⟨_, rfl, fun hc => ?_, fun hc => ?_⟩
  · refine ⟨two_le_pySplitColon da hc, ?_, ?_⟩
    · show some (JVal.s (if pyContainsColon da then (pySplitColon da).getD 1 "" else da)) = _
      rw [hc]
      rfl
    · show some (JVal.s (if pyContainsColon da then
          (pySplitColon da).getD 0 "" ++ ".amazonaws.com" else "aws.amazonaws.com")) = _
      rw [hc]
      rfl
  · constructor
    · show some (JVal.s (if pyContainsColon da then (pySplitColon da).getD 1 "" else da)) = _
      rw [hc]
      rfl
    · show some (JVal.s (if pyContainsColon da then
          (pySplitColon da).getD 0 "" ++ ".amazonaws.com" else "aws.amazonaws.com")) = _
      rw [hc]
      rfl

/-- C6 witness: the defaulted denied_action "s3:GetObject" yields event name
"GetObject" and event source "s3.amazonaws.com". -/
theorem C6_default_action_witness :
    ∃ inc, simulate_policy_mismatch (JVal.s "sim-user") (JVal.s "192.0.2.1")
        (JVal.obj []) "u" 0 "T" = some inc ∧
      (pyContainsColon "s3:GetObject" = true →
        2 ≤ (pySplitColon "s3:GetObject").length ∧
        jget inc.detection_signal "event_name" =
          some (.s ((pySplitColon "s3:GetObject").getD 1 "")) ∧
        jget inc.detection_signal "event_source" =
          some (.s ((pySplitColon "s3:GetObject").getD 0 "" ++ ".amazonaws.com"))) ∧
      (pyContainsColon "s3:GetObject" = false →
        jget inc.detection_signal "event_name" = some (.s "s3:GetObject") ∧
        jget inc.detection_signal "event_source" = some (.s "aws.amazonaws.com")) :=
  C6_signal_derived_from_denied_action (JVal.s "sim-user") (JVal.s "192.0.2.1")
    (JVal.obj []) "u" 0 "T" "s3:GetObject" rfl

/-- C8: a simulator-mode request whose scenario matches none of the three
known values yields the 400 body listing exactly the three valid scenario
names, with an empty side-effect trace (no store, notify or metric call). -/
theorem C8_unknown_scenario_is_client_error (c : Collab) (event : JObj)
    (u : String) (now : Int) (iso : String)
    (h1 : (jgetD event "scenario" (.s "mfa_auth_failure")).eqStr "mfa_auth_failure" = false)
    (h2 : (jgetD event "scenario" (.s "mfa_auth_failure")).eqStr "rate_limiting" = false)
    (h3 : (jgetD event "scenario" (.s "mfa_auth_failure")).eqStr "policy_mismatch" = false) :
    process_simulator_event c event u now iso =
      ( .ok { statusCode := 400
              mode := none
              incident_id := none
              scenario := none
              status := none
              timestamp := none
              errorText := some ("Unknown scenario: " ++
                (jgetD event "scenario" (.s "mfa_auth_failure")).asText)
              valid_scenarios := some ["mfa_auth_failure", "rate_limiting", "policy_mismatch"] }
      , [] ) := by
  simp [process_simulator_event, h1, h2, h3]

/-- C8 witness: the concrete request used by
`test_simulator_unknown_scenario_returns_error`. -/
theorem C8_unknown_scenario_witness :
    process_simulator_event (Collab.mk true true true true)
      [("scenario", JVal.s "unknown_scenario")] "u" 0 "T" =
      ( .ok { statusCode := 400
              mode := none
              incident_id := none
              scenario := none
              status := none
              timestamp := none
              errorText := some "Unknown scenario: unknown_scenario"
              valid_scenarios := some ["mfa_auth_failure", "rate_limiting", "policy_mismatch"] }
      , [] ) :=
  C8_unknown_scenario_is_client_error (Collab.mk true true true true)
    [("scenario", JVal.s "unknown_scenario")] "u" 0 "T" rfl rfl rfl

/-- C9: every incident produced by any of the five builders — the two
classifier builders and the three synthesizer builders — has an incident_id
beginning with the scenario's fixed prefix (mfa_auth_failure ↦ MFA-AUTH,
rate_limiting ↦ RATE-LIMIT, policy_mismatch ↦ POLICY), followed by a dash. -/
theorem C9_incident_id_prefix_matches_scenario :
    (∀ (user source_ip : JVal) (detail : JObj) (u : String) (now : Int) (iso : String),
      ∃ t, (create_mfa_auth_failure_incident user source_ip detail u now iso).incident_id =
        idStemFor (create_mfa_auth_failure_incident user source_ip detail u now iso).scenario
          ++ "-" ++ t) ∧
    (∀ (user source_ip da : JVal) (detail : JObj) (u : String) (now : Int) (iso : String),
      ∃ t, (create_policy_mismatch_incident user source_ip da detail u now iso).incident_id =
        idStemFor (create_policy_mismatch_incident user source_ip da detail u now iso).scenario
          ++ "-" ++ t) ∧
    (∀ (user source_ip md : JVal) (u : String) (now : Int) (iso : String),
      ∃ t, (simulate_mfa_auth_failure user source_ip md u now iso).incident_id =
        idStemFor (simulate_mfa_auth_failure user source_ip md u now iso).scenario
          ++ "-" ++ t) ∧
    (∀ (user source_ip md : JVal) (u : String) (now : Int) (iso : String),
      ∃ t, (simulate_rate_limiting user source_ip md u now iso).incident_id =
        idStemFor (simulate_rate_limiting user source_ip md u now iso).scenario
          ++ "-" ++ t) ∧
    (∀ (user source_ip md : JVal) (u : String) (now : Int) (iso : String)
        (inc : Incident), simulate_policy_mismatch user source_ip md u now iso = some inc →
      ∃ t, inc.incident_id = idStemFor inc.scenario ++ "-" ++ t) := by
  refine ⟨fun user source_ip detail u now iso => ⟨pyTake8Upper u, rfl⟩,
    fun user source_ip da detail u now iso => ⟨pyTake8Upper u, rfl⟩,
    fun user source_ip md u now iso => ⟨pyTake8Upper u, rfl⟩,
    fun user source_ip md u now iso => ⟨pyTake8Upper u, rfl⟩,
    fun user source_ip md u now iso inc h => ?_⟩
  unfold simulate_policy_mismatch at h
  rcases hda : jgetD (asObjD md) "denied_action" (.s "s3:GetObject") with v | v | v | l <;>
    rw [hda] at h
  · cases h
    exact ⟨pyTake8Upper u, rfl⟩
  · cases h
  · cases h
  · cases h

/-- C9 witness: the last conjunct applied to a concrete policy_mismatch
synthesis. -/
theorem C9_policy_mismatch_prefix_witness :
    ∃ t, ((simulate_policy_mismatch (JVal.s "sim-user") (JVal.s "192.0.2.1")
        (JVal.obj []) "1234abcd" 0 "T").getD dummyIncident).incident_id =
      idStemFor ((simulate_policy_mismatch (JVal.s "sim-user") (JVal.s "192.0.2.1")
        (JVal.obj []) "1234abcd" 0 "T").getD dummyIncident).scenario ++ "-" ++ t :=
  C9_incident_id_prefix_matches_scenario.2.2.2.2 (JVal.s "sim-user") (JVal.s "192.0.2.1")
    (JVal.obj []) "1234abcd" 0 "T" _ rfl

/-- C7: for every simulator request that reaches the pipeline with an
incident — when the store write raises, the failure propagates (`Except.error`,
no "created" body) and the side-effect trace holds only the attempted store
call, never a notify or metric call; when the store write succeeds, the
request reports a 200 "created" body whatever the notify/metric outcome
oracles say (their failures are swallowed inside publish_alert/emit_metric). -/
theorem C7_store_fatal_notify_metric_nonfatal (c : Collab) (event : JObj)
    (u : String) (now : Int) (iso : String)
    (hprod : producesIncident event = true) :
    (c.store_ok = false →
      (process_simulator_event c event u now iso).fst = .error () ∧
      ∀ call ∈ (process_simulator_event c event u now iso).snd, call.isStore = true) ∧
    (c.store_ok = true →
      ∃ body, (process_simulator_event c event u now iso).fst = .ok body ∧
        body.statusCode = 200 ∧ body.status = some "created") := by
  by_cases h1 : (jgetD event "scenario" (.s "mfa_auth_failure")).eqStr "mfa_auth_failure" = true
  · have he : process_simulator_event c event u now iso =
        run_pipeline c (simulate_mfa_auth_failure (jgetD event "user" (.s "test-user"))
          (jgetD event "source_ip" (.s "192.0.2.1")) (jgetD event "metadata" (.obj []))
          u now iso) (jgetD event "scenario" (.s "mfa_auth_failure")) := by
      simp [process_simulator_event, h1]
    rw [he]
    exact run_pipeline_cases c _ _
  by_cases h2 : (jgetD event "scenario" (.s "mfa_auth_failure")).eqStr "rate_limiting" = true
  · have he : process_simulator_event c event u now iso =
        run_pipeline c (simulate_rate_limiting (jgetD event "user" (.s "test-user"))
          (jgetD event "source_ip" (.s "192.0.2.1")) (jgetD event "metadata" (.obj []))
          u now iso) (jgetD event "scenario" (.s "mfa_auth_failure")) := by
      simp [process_simulator_event, h1, h2]
    rw [he]
    exact run_pipeline_cases c _ _
  rw [Bool.not_eq_true] at h1 h2
  by_cases h3 : (jgetD event "scenario" (.s "mfa_auth_failure")).eqStr "policy_mismatch" = true
  · simp only [producesIncident, h1, h2, h3, Bool.false_or, Bool.true_and] at hprod
    rcases hda : jgetD (asObjD (jgetD event "metadata" (.obj []))) "denied_action"
        (.s "s3:GetObject") with v | v | v | l <;> rw [hda] at hprod
    · have hsome : ∃ inc, simulate_policy_mismatch (jgetD event "user" (.s "test-user"))
          (jgetD event "source_ip" (.s "192.0.2.1")) (jgetD event "metadata" (.obj []))
          u now iso = some inc := by
        unfold simulate_policy_mismatch
        rw [hda]
        exact ⟨_, rfl⟩
      obtain ⟨inc, hinc⟩ := hsome
      have he : process_simulator_event c event u now iso =
          run_pipeline c inc (jgetD event "scenario" (.s "mfa_auth_failure")) := by
        simp [process_simulator_event, h1, h2, h3, hinc]
      rw [he]
      exact run_pipeline_cases c _ _
    · simp at hprod
    · simp at hprod
    · simp at hprod
  rw [Bool.not_eq_true] at h3
  simp [producesIncident, h1, h2, h3] at hprod

/-- C7 witness: with scenario rate_limiting, a raising store propagates with
a store-only trace, and a succeeding store yields a 200 "created" body even
when both the notify and the metric collaborators fail. -/
theorem C7_rate_limiting_witness :
    ((process_simulator_event (Collab.mk false true true true)
        [("scenario", JVal.s "rate_limiting")] "u" 0 "T").fst = .error () ∧
      ∀ call ∈ (process_simulator_event (Collab.mk false true true true)
        [("scenario", JVal.s "rate_limiting")] "u" 0 "T").snd, call.isStore = true) ∧
    (∃ body, (process_simulator_event (Collab.mk true true false false)
        [("scenario", JVal.s "rate_limiting")] "u" 0 "T").fst = .ok body ∧
      body.statusCode = 200 ∧ body.status = some "created") :=
  ⟨(C7_store_fatal_notify_metric_nonfatal (Collab.mk false true true true)
      [("scenario", JVal.s "rate_limiting")] "u" 0 "T" rfl).1 rfl,
    (C7_store_fatal_notify_metric_nonfatal (Collab.mk true true false false)
      [("scenario", JVal.s "rate_limiting")] "u" 0 "T" rfl).2 rfl⟩

end MfaSim

